import Mathlib

/-!
Shallow embedding of the momentum_engine core (IELTS prep app):
cost tracking / budget gating (`momentum_engine/ai/cost_tracker.py`),
tiered escalation orchestration (`momentum_engine/ai/orchestrator.py`),
track assignment and performance-swap intervention
(`momentum_engine/modules/navigator/service.py`), and the streak state
machine (`momentum_engine/modules/gamification/service.py`).

Money amounts are Python `Decimal` values in the source; all arithmetic
performed on them here is exact, so they are embedded as rationals (`ℚ`).
Dates are embedded as integers counting days (only differences of dates
are ever used by the code).  Database access is embedded by passing the
relevant rows explicitly: `Option row` for a row that may be absent, and
an outer `Option` for a database session that may not be configured.
-/

namespace Momentum

/-! ## Cost tracker (`momentum_engine/ai/cost_tracker.py`) -/

/-- A row of the `user_ai_budgets` table, as far as `CostTracker` reads and
writes it: the running monthly spend and the weekly tier-3 call counter. -/
structure UserAIBudget where
  current_month_spend : ℚ
  tier3_calls_this_week : ℕ
  deriving Repr, DecidableEq

/-- `CostTracker.MONTHLY_BUDGET_USD = Decimal("0.50")`. -/
def MONTHLY_BUDGET_USD : ℚ := 0.50

/-- `CostTracker.TIER3_WEEKLY_LIMIT = 1`. -/
def TIER3_WEEKLY_LIMIT : ℕ := 1

/-- Cost per 1K tokens for one tier. -/
structure TierRates where
  input : ℚ
  output : ℚ
  deriving Repr, DecidableEq

/-- `CostTracker.COSTS` looked up with the `.get(tier, COSTS[2])` default used
by `log_usage`: tier 3 has its own rates, every other tier falls back to the
tier-2 rates. -/
def COSTS (tier : ℕ) : TierRates :=
  if tier = 3 then ⟨0.003, 0.015⟩ else ⟨0.00025, 0.00125⟩

/-- The database session visible to `CostTracker`: `none` when `set_db` was
never called (`self._db is None`), otherwise the budget row returned by
`SELECT ... WHERE user_id = :user_id` for the user in question (`none` inside
when the user has no ledger row yet). -/
abbrev BudgetDb := Option (Option UserAIBudget)

/-- `CostTracker.has_budget(user_id, tier)`: `True` with no db session;
`True` for a user with no budget row; otherwise deny when
`current_month_spend >= MONTHLY_BUDGET_USD`, additionally deny for tier 3
when `tier3_calls_this_week >= TIER3_WEEKLY_LIMIT`, else allow. -/
def has_budget (db : BudgetDb) (tier : ℕ) : Bool :=
  match db with
  | none => true
  | some none => true
  | some (some budget) =>
    if MONTHLY_BUDGET_USD ≤ budget.current_month_spend then false
    else if tier = 3 ∧ TIER3_WEEKLY_LIMIT ≤ budget.tier3_calls_this_week then false
    else true

/-- The cost computed by `CostTracker.log_usage`:
`(Decimal(input_tokens) / 1000 * tier_costs["input"]) +
 (Decimal(output_tokens) / 1000 * tier_costs["output"])`. -/
def usage_cost (tier : ℕ) (input_tokens output_tokens : ℕ) : ℚ :=
  (input_tokens : ℚ) / 1000 * (COSTS tier).input +
    (output_tokens : ℚ) / 1000 * (COSTS tier).output

/-- The `INSERT ... ON CONFLICT (user_id) DO UPDATE` that `log_usage` issues
against `user_ai_budgets`: create the row with `(:cost, 1 if tier == 3 else 0)`
if absent, else add the cost to `current_month_spend` and add 1 to
`tier3_calls_this_week` exactly when `tier = 3`. -/
def upsert_budget (row : Option UserAIBudget) (cost : ℚ) (tier : ℕ) : UserAIBudget :=
  match row with
  | none => ⟨cost, if tier = 3 then 1 else 0⟩
  | some b =>
    ⟨b.current_month_spend + cost,
     if tier = 3 then b.tier3_calls_this_week + 1 else b.tier3_calls_this_week⟩

/-- What a call to `CostTracker.log_usage` returns and leaves behind: the cost
it returns to the caller, the budget database afterwards, and whether a usage
log row was inserted into `ai_usage_logs`. -/
structure LogUsageResult where
  cost : ℚ
  db_after : BudgetDb
  usage_log_inserted : Bool
  deriving Repr, DecidableEq

/-- `CostTracker.log_usage(user_id, tier, model, input_tokens, output_tokens)`:
compute the cost; with no db session (`self._db is None`) return it at once,
persisting nothing; otherwise insert a usage-log row and upsert the user's
budget row. -/
def log_usage (db : BudgetDb) (tier : ℕ) (input_tokens output_tokens : ℕ) :
    LogUsageResult :=
  let cost := usage_cost tier input_tokens output_tokens
  match db with
  | none => ⟨cost, none, false⟩
  | some row => ⟨cost, some (some (upsert_budget row cost tier)), true⟩

/-! ## Orchestrator (`momentum_engine/ai/orchestrator.py`) -/

/-- The context dict passed to `AIOrchestrator.select_task` /
`generate_weekly_report`, restricted to the keys those paths read.  Each field
is `Option` because the code reads it with `context.get(key, default)`. -/
structure Context where
  recent_accuracy : Option ℚ
  consecutive_failures : Option ℕ
  weak_modules : Option (List String)
  available_task_ids : Option (List ℕ)
  deriving Repr, DecidableEq

/-- `AIOrchestrator._needs_ai_intervention`:
`recent_accuracy < 60 or consecutive_failures >= 2`, with defaults 100 and 0. -/
def needs_ai_intervention (ctx : Context) : Bool :=
  decide (ctx.recent_accuracy.getD 100 < 60) || decide (2 ≤ ctx.consecutive_failures.getD 0)

/-- The dict returned by the task-selection paths: `tier`,
`selected_task_id` and `cost` (the `reasoning` string carries no logic). -/
structure TaskSelection where
  tier : ℕ
  selected_task_id : Option ℕ
  cost : ℚ
  deriving Repr, DecidableEq

/-- `AIOrchestrator._tier1_task_selection`: rule-based, returns `tier = 1`,
the first available task id (both branches of the Python `if` pick
`available_tasks[0]`, `None` when the list is empty) and cost 0. -/
def tier1_task_selection (ctx : Context) : TaskSelection :=
  let weak_modules := ctx.weak_modules.getD []
  let available_tasks := ctx.available_task_ids.getD []
  let selected_id :=
    if ¬weak_modules.isEmpty ∧ ¬available_tasks.isEmpty then available_tasks.head?
    else available_tasks.head?
  ⟨1, selected_id, 0⟩

/-- Outcome of the tier-2 body (`_tier2_task_selection`): either the provider
answered and its text parsed to a task id with the given token usage, or some
exception was raised anywhere in that body (provider failure, timeout, parse
failure alike — `select_task` catches every `Exception`). -/
inductive Tier2Outcome where
  | ok (task_id : ℕ) (input_tokens output_tokens : ℕ)
  | exn
  deriving Repr, DecidableEq

/-- What one `select_task` call produces: the returned dict, the budget
database afterwards, and whether a provider call was attempted. -/
structure SelectTaskRun where
  result : TaskSelection
  db_after : BudgetDb
  provider_called : Bool
  deriving Repr, DecidableEq

/-- `AIOrchestrator.select_task`: run the tier-1 rules unless the classifier
signals escalation; before tier 2 ask `has_budget(user, 2)` and fall back to
tier 1 on denial without calling the provider; call the provider otherwise and
fall back to tier 1 on any exception (cost is logged only on success, inside
`_tier2_task_selection`). -/
def select_task (db : BudgetDb) (ctx : Context) (t2 : Tier2Outcome) : SelectTaskRun :=
  if ¬needs_ai_intervention ctx then ⟨tier1_task_selection ctx, db, false⟩
  else if ¬has_budget db 2 then ⟨tier1_task_selection ctx, db, false⟩
  else
    match t2 with
    | .ok task_id input_tokens output_tokens =>
      let logged := log_usage db 2 input_tokens output_tokens
      ⟨⟨2, some task_id, logged.cost⟩, logged.db_after, true⟩
    | .exn => ⟨tier1_task_selection ctx, db, true⟩

/-- Outcome of the tier-3 body (`_tier3_weekly_report`): provider text and
token usage, or any exception (caught by `generate_weekly_report`). -/
inductive Tier3Outcome where
  | ok (input_tokens output_tokens : ℕ)
  | exn
  deriving Repr, DecidableEq

/-- What one `generate_weekly_report` call produces: the tier of the returned
report (3 for the AI report, 0 for the template fallback), its cost, the
budget database afterwards, and whether a provider call was attempted. -/
structure WeeklyReportRun where
  tier : ℕ
  cost : ℚ
  db_after : BudgetDb
  provider_called : Bool
  deriving Repr, DecidableEq

/-- `AIOrchestrator.generate_weekly_report`: ask `has_budget(user, 3)`; on
denial return the template (tier 0) without a provider call; otherwise call
the provider, logging usage (tier 3) only on success, and return the template
on any exception — a failed tier-3 attempt reaches no `log_usage` call. -/
def generate_weekly_report (db : BudgetDb) (t3 : Tier3Outcome) : WeeklyReportRun :=
  if ¬has_budget db 3 then ⟨0, 0, db, false⟩
  else
    match t3 with
    | .ok input_tokens output_tokens =>
      let logged := log_usage db 3 input_tokens output_tokens
      ⟨3, logged.cost, logged.db_after, true⟩
    | .exn => ⟨0, 0, db, true⟩

/-! ## Navigator: track assignment
(`momentum_engine/modules/navigator/service.py`, `assign_track`) -/

/-- The arguments of `NavigatorService.assign_track`.  The diagnostic score is
a Python float holding an IELTS band (a multiple of 0.5, exactly
representable), embedded as `ℚ`. -/
structure TrackInput where
  diagnostic_score : ℚ
  days_until_exam : ℤ
  test_type : String
  weak_module : Option String
  daily_availability_minutes : ℤ
  weekend_availability : Bool
  deriving Repr, DecidableEq

/-- `NavigatorService.assign_track`, transcribed cascade of early returns. -/
def assign_track (x : TrackInput) : String :=
  if x.days_until_exam < 21 then
    if x.test_type = "academic" then "academic_fast_track" else "general_fast_track"
  else if 6.5 ≤ x.diagnostic_score then "sprint"
  else if x.diagnostic_score < 5.5 then "foundation"
  else if x.weak_module = some "writing" then "writing_focus"
  else if x.weak_module = some "speaking" then "speaking_focus"
  else if x.daily_availability_minutes < 20 ∧ x.weekend_availability then "weekend_warrior"
  else if 90 ≤ x.daily_availability_minutes then "intensive"
  else if x.daily_availability_minutes < 30 then "professional_marathon"
  else if 90 < x.days_until_exam then "foundation"
  else if 45 < x.days_until_exam then "balanced"
  else "professional_marathon"

/-- One rule of the ordered decision list: a guard and the track it yields. -/
structure TrackRule where
  guard : TrackInput → Bool
  track : TrackInput → String

/-- `assign_track` as an ordered decision list, one rule per early return of
the source, in source order; the last guard is the catch-all. -/
def trackRules : List TrackRule :=
  [⟨fun x => decide (x.days_until_exam < 21),
    fun x => if x.test_type = "academic" then "academic_fast_track" else "general_fast_track"⟩,
   ⟨fun x => decide (6.5 ≤ x.diagnostic_score), fun _ => "sprint"⟩,
   ⟨fun x => decide (x.diagnostic_score < 5.5), fun _ => "foundation"⟩,
   ⟨fun x => decide (x.weak_module = some "writing"), fun _ => "writing_focus"⟩,
   ⟨fun x => decide (x.weak_module = some "speaking"), fun _ => "speaking_focus"⟩,
   ⟨fun x => decide (x.daily_availability_minutes < 20) && x.weekend_availability,
    fun _ => "weekend_warrior"⟩,
   ⟨fun x => decide (90 ≤ x.daily_availability_minutes), fun _ => "intensive"⟩,
   ⟨fun x => decide (x.daily_availability_minutes < 30), fun _ => "professional_marathon"⟩,
   ⟨fun x => decide (90 < x.days_until_exam), fun _ => "foundation"⟩,
   ⟨fun x => decide (45 < x.days_until_exam), fun _ => "balanced"⟩,
   ⟨fun _ => true, fun _ => "professional_marathon"⟩]

/-- First-match evaluation of a decision list. -/
def evalRules (x : TrackInput) : List TrackRule → Option String
  | [] => none
  | r :: rs => if r.guard x then some (r.track x) else evalRules x rs

/-- Rule `i` fires on `x` under first-match semantics: its guard holds and all
earlier guards fail. -/
def ruleFires (rules : List TrackRule) (x : TrackInput) (i : ℕ) : Prop :=
  ∃ h : i < rules.length,
    (rules.get ⟨i, h⟩).guard x = true ∧
      ∀ j (hj : j < i), (rules.get ⟨j, by omega⟩).guard x = false

/-! ## Gamification: streak state machine
(`momentum_engine/modules/gamification/service.py`, `update_streak`) -/

/-- A row of the `streaks` table as `update_streak` reads and writes it.
Dates are integers counting days, so that `today - last` is the Python
`(today - last_activity_date).days`. -/
structure Streak where
  current_streak : ℕ
  longest_streak : ℕ
  last_activity_date : Option ℤ
  deriving Repr, DecidableEq

/-- The Python `for m in milestones: if previous < m <= current: break` loop:
first milestone in the list strictly above the previous streak and not above
the new one. -/
def firstCrossed (previous current : ℕ) : List ℕ → Option ℕ
  | [] => none
  | m :: rest =>
    if previous < m ∧ m ≤ current then some m else firstCrossed previous current rest

/-- The milestone list of `update_streak`. -/
def milestones : List ℕ := [7, 14, 30, 60, 90]

/-- The dict returned by `GamificationService.update_streak`. -/
structure StreakUpdateResult where
  current_streak : ℕ
  longest_streak : ℕ
  milestone_reached : Option ℕ
  deriving Repr, DecidableEq

/-- `GamificationService.update_streak`, acting on a present streak row:
first activity → 1; same day → unchanged; exactly one day later → increment;
anything else → reset to 1.  Then raise `longest_streak` if exceeded, set
`last_activity_date := today`, and report the first crossed milestone.
Returns the stored row and the returned dict. -/
def update_streak_row (streak : Streak) (today : ℤ) : Streak × StreakUpdateResult :=
  let previous_streak := streak.current_streak
  let current :=
    match streak.last_activity_date with
    | none => 1
    | some last =>
      if last = today then streak.current_streak
      else if today - last = 1 then streak.current_streak + 1
      else 1
  let longest := if streak.longest_streak < current then current else streak.longest_streak
  let milestone := firstCrossed previous_streak current milestones
  (⟨current, longest, some today⟩, ⟨current, longest, milestone⟩)

/-! ## Service-level error surface -/

/-- `momentum_engine/shared/exceptions.py`: the `NotFoundError(resource, id)`
exception raised by services (the only failure these claims concern). -/
inductive ServiceError where
  | notFoundError (resource : String) (resource_id : String)
  deriving Repr, DecidableEq

/-- `GamificationService.update_streak(user_id)` as seen by the caller: the
`SELECT` on `streaks` yields `streak_row`; a missing row raises
`NotFoundError("Streak", user_id)`, otherwise the transition runs. -/
def update_streak_service (user_id : String) (streak_row : Option Streak) (today : ℤ) :
    Except ServiceError (Streak × StreakUpdateResult) :=
  match streak_row with
  | none => .error (.notFoundError "Streak" user_id)
  | some streak => .ok (update_streak_row streak today)

/-! ## Navigator: performance check and intervention swap
(`momentum_engine/modules/navigator/service.py`,
`check_performance_and_swap` and `_get_intervention_task`) -/

/-- A task row, restricted to the fields the swap path reads. -/
structure TaskRec where
  id : ℕ
  title : String
  type : String
  deriving Repr, DecidableEq

/-- The database as the swap path queries it: whether the `SELECT` on `users`
finds the user, the result of the narrow strategy/remediation/practice
title-pattern query of `_get_intervention_task`, and the result of its broad
any-task-matching-the-module fallback query. -/
structure SwapDb where
  user_row : Option Unit
  strategy_query : Option TaskRec
  fallback_query : Option TaskRec
  deriving Repr, DecidableEq

/-- `NavigatorService._get_intervention_task`: return the narrow query's task
when it found one, else fall back to the broad query. -/
def get_intervention_task (db : SwapDb) : Option TaskRec :=
  match db.strategy_query with
  | some task => some task
  | none => db.fallback_query

/-- The `ContentSwap` row created when a swap fires. -/
structure ContentSwap where
  module : String
  original_task_id : ℕ
  intervention_task_id : ℕ
  deriving Repr, DecidableEq

/-- What one `check_performance_and_swap` call produces: the optional swap
dict returned (`none` = "no intervention"), and the `ContentSwap` rows added. -/
structure SwapRun where
  result : Option TaskRec
  swaps_created : List ContentSwap
  deriving Repr, DecidableEq

/-- `NavigatorService.check_performance_and_swap(user_id, completed_task_id,
score, module)`: `score >= 60` → no swap; a missing user → `None` (returned,
not raised); no candidate intervention task → `None`; otherwise create one
`ContentSwap` row and return the intervention task.  Never raises: embedded
in `Except ServiceError` to state which errors reach the caller. -/
def check_performance_and_swap (db : SwapDb) (completed_task_id : ℕ) (score : ℤ)
    (module : String) : Except ServiceError SwapRun :=
  if 60 ≤ score then .ok ⟨none, []⟩
  else
    match db.user_row with
    | none => .ok ⟨none, []⟩
    | some _ =>
      match get_intervention_task db with
      | none => .ok ⟨none, []⟩
      | some task =>
        .ok ⟨some task, [⟨module, completed_task_id, task.id⟩]⟩

/-- The tier-3 weekly counter stored in the budget database; a session-less
database or a missing row count as 0 (the state the upsert creates from). -/
def tier3_count : BudgetDb → ℕ
  | some (some b) => b.tier3_calls_this_week
  | _ => 0

/-! ## Theorems -/

/-- C1: for a configured db session, `has_budget` at tier 2 or 3 denies when
`current_month_spend >= MONTHLY_BUDGET_USD`; tier 3 additionally denies when
`tier3_calls_this_week >= TIER3_WEEKLY_LIMIT`; otherwise it allows; a user
with no ledger row is allowed at every tier; spend `0.52` is denied at both
tiers and spend `0.48` allowed at both tiers when the tier-3 weekly count is
below the limit. -/
theorem C1_budget_gate (b : UserAIBudget) (tier : ℕ) (htier : tier = 2 ∨ tier = 3) :
    (MONTHLY_BUDGET_USD ≤ b.current_month_spend →
      has_budget (some (some b)) tier = false) ∧
    (tier = 3 → TIER3_WEEKLY_LIMIT ≤ b.tier3_calls_this_week →
      has_budget (some (some b)) tier = false) ∧
    (b.current_month_spend < MONTHLY_BUDGET_USD →
      (tier = 3 → b.tier3_calls_this_week < TIER3_WEEKLY_LIMIT) →
      has_budget (some (some b)) tier = true) ∧
    (∀ t : ℕ, has_budget (some none) t = true) ∧
    (b.current_month_spend = 0.52 → has_budget (some (some b)) tier = false) ∧
    (b.current_month_spend = 0.48 → b.tier3_calls_this_week < TIER3_WEEKLY_LIMIT →
      has_budget (some (some b)) tier = true) := by
  simp only [has_budget, MONTHLY_BUDGET_USD, TIER3_WEEKLY_LIMIT]
  refine ⟨?_, ?_, ?_, fun t => trivial, ?_, ?_⟩
  · intro h
    rw [if_pos h]
  · intro h3 hw
    subst h3
    split_ifs with h1 h2 <;> simp_all
  · intro hspend hweek
    rw [if_neg (not_le.mpr hspend)]
    rcases htier with h | h <;> subst h
    · rw [if_neg (by simp)]
    · rw [if_neg (by push_neg; intro; exact hweek rfl)]
  · intro h
    rw [if_pos (by rw [h]; norm_num)]
  · intro h hweek
    rw [if_neg (by rw [h]; norm_num)]
    rcases htier with ht | ht <;> subst ht
    · rw [if_neg (by simp)]
    · rw [if_neg (by push_neg; intro; exact hweek)]

/-- Witness for C1 at the concrete spend values of the claim. -/
theorem C1_budget_gate_witness :
    has_budget (some (some ⟨0.52, 0⟩)) 2 = false ∧
    has_budget (some (some ⟨0.48, 0⟩)) 3 = true := by
  constructor
  · exact (C1_budget_gate ⟨0.52, 0⟩ 2 (Or.inl rfl)).2.2.2.2.1 rfl
  · exact (C1_budget_gate ⟨0.48, 0⟩ 3 (Or.inr rfl)).2.2.2.2.2 rfl
      (by simp [TIER3_WEEKLY_LIMIT])

/-- C6 counterexample: at tier-2 rates, `tokensIn=500, tokensOut=50` costs
exactly `0.0001875` USD, not `0.000188` as the claim states; `log_usage`
performs no rounding. -/
theorem C6_cost_counterexample :
    usage_cost 2 500 50 ≠ (0.000188 : ℚ) ∧ usage_cost 2 500 50 = (0.0001875 : ℚ) := by
  norm_num [usage_cost, COSTS]

/-- C6 (amended): the cost of every logged usage is
`(tokensIn/1000)*rateIn + (tokensOut/1000)*rateOut` with tier-2 rates
`(0.00025, 0.00125)` and tier-3 rates `(0.003, 0.015)`; `tokensIn=500,
tokensOut=50` at tier-2 rates costs `0.0001875` USD and `tokensIn=1000,
tokensOut=500` at tier-3 rates costs `0.0105` USD; `log_usage` returns this
cost whatever the database state. -/
theorem C6_cost_formula (i o : ℕ) :
    usage_cost 2 i o = (i : ℚ) / 1000 * 0.00025 + (o : ℚ) / 1000 * 0.00125 ∧
    usage_cost 3 i o = (i : ℚ) / 1000 * 0.003 + (o : ℚ) / 1000 * 0.015 ∧
    usage_cost 2 500 50 = (0.0001875 : ℚ) ∧
    usage_cost 3 1000 500 = (0.0105 : ℚ) ∧
    (∀ db tier, (log_usage db tier i o).cost = usage_cost tier i o) := by
  refine ⟨by norm_num [usage_cost, COSTS], by norm_num [usage_cost, COSTS],
    by norm_num [usage_cost, COSTS], by norm_num [usage_cost, COSTS], ?_⟩
  intro db tier
  cases db <;> rfl

/-- C2: whenever the classifier signals escalation (`recent_accuracy < 60` or
`consecutive_failures >= 2`) but `has_budget` denies tier 2, `select_task`
returns the tier-1 rule-based result, whose `tier` is 1, with no provider
call; whenever the tier-2 body raises, the tier-1 result is returned; the
tier-1 result always carries `tier = 1`, so the caller always receives a
result. -/
theorem C2_escalation_fallback (db : BudgetDb) (ctx : Context) (t2 : Tier2Outcome) :
    (needs_ai_intervention ctx = true → has_budget db 2 = false →
      select_task db ctx t2 = ⟨tier1_task_selection ctx, db, false⟩) ∧
    ((select_task db ctx .exn).result = tier1_task_selection ctx) ∧
    (tier1_task_selection ctx).tier = 1 := by
  refine ⟨?_, ?_, rfl⟩
  · intro hneed hbudget
    simp [select_task, hneed, hbudget]
  · by_cases hneed : needs_ai_intervention ctx
    · by_cases hbudget : has_budget db 2 <;> simp [select_task, hneed, hbudget]
    · simp [select_task, hneed]

/-- Witness for C2: the spec's end-to-end example, `recent_accuracy = 40`,
`consecutive_failures = 3` and a budget row over the ceiling: the result is
the tier-1 selection of the first available task, and no provider call. -/
theorem C2_escalation_fallback_witness :
    select_task (some (some ⟨0.52, 0⟩)) ⟨some 40, some 3, some [], some [11, 12]⟩ .exn =
      ⟨⟨1, some 11, 0⟩, some (some ⟨0.52, 0⟩), false⟩ :=
  (C2_escalation_fallback (some (some ⟨0.52, 0⟩)) ⟨some 40, some 3, some [], some [11, 12]⟩
      .exn).1 (by norm_num [needs_ai_intervention])
    (by norm_num [has_budget, MONTHLY_BUDGET_USD])

/-- C9 counterexample: a tier-3 attempt that reaches the provider and fails
does not increment `tier3_calls_this_week` — with a fresh budget row the
provider is called, yet the budget database is unchanged afterwards, counter
still 0; so "every tier-3 attempt, successful or failed, adds 1" is false. -/
theorem C9_counterexample :
    (generate_weekly_report (some (some ⟨0, 0⟩)) .exn).provider_called = true ∧
    (generate_weekly_report (some (some ⟨0, 0⟩)) .exn).db_after = some (some ⟨0, 0⟩) ∧
    tier3_count (generate_weekly_report (some (some ⟨0, 0⟩)) .exn).db_after = 0 := by
  norm_num [generate_weekly_report, has_budget, MONTHLY_BUDGET_USD, TIER3_WEEKLY_LIMIT,
    tier3_count]

/-- C9 (amended): `tier3_calls_this_week` increments by exactly 1 exactly when
tier-3 usage is logged: every `log_usage` at tier 3 against a configured
session adds 1, tier-2 logging leaves the counter unchanged (so `select_task`
never changes it), a successful tier-3 report adds exactly 1 — but a tier-3
attempt whose provider call raises is never logged and leaves the counter
unchanged. -/
theorem C9_tier3_counter (db : BudgetDb) (i o : ℕ) :
    (db ≠ none → tier3_count (log_usage db 3 i o).db_after = tier3_count db + 1) ∧
    (tier3_count (log_usage db 2 i o).db_after = tier3_count db) ∧
    ((generate_weekly_report db .exn).db_after = db) ∧
    (has_budget db 3 = true → db ≠ none →
      tier3_count (generate_weekly_report db (.ok i o)).db_after = tier3_count db + 1) ∧
    (∀ ctx t2, tier3_count (select_task db ctx t2).db_after = tier3_count db) := by
  have hlog3 : db ≠ none → tier3_count (log_usage db 3 i o).db_after = tier3_count db + 1 := by
    intro hdb
    match db with
    | none => exact absurd rfl hdb
    | some none => rfl
    | some (some b) => rfl
  have hlog2 : ∀ i2 o2 : ℕ, tier3_count (log_usage db 2 i2 o2).db_after = tier3_count db := by
    intro i2 o2
    match db with
    | none => rfl
    | some none => rfl
    | some (some b) => rfl
  refine ⟨hlog3, hlog2 i o, ?_, ?_, ?_⟩
  · by_cases hb : has_budget db 3 <;> simp [generate_weekly_report, hb]
  · intro hb hdb
    rw [generate_weekly_report, if_neg (by simp [hb])]
    exact hlog3 hdb
  · intro ctx t2
    by_cases hneed : needs_ai_intervention ctx
    · by_cases hb : has_budget db 2
      · cases t2 <;> simp [select_task, hneed, hb, hlog2]
      · simp [select_task, hneed, hb]
    · simp [select_task, hneed]

/-- Witness for C9 (amended) on a concrete fresh budget row. -/
theorem C9_tier3_counter_witness :
    tier3_count (log_usage (some (some ⟨0, 0⟩)) 3 1000 500).db_after = 1 ∧
    tier3_count (generate_weekly_report (some (some ⟨0, 0⟩)) (.ok 1000 500)).db_after = 1 := by
  constructor
  · exact (C9_tier3_counter (some (some ⟨0, 0⟩)) 1000 500).1 (by simp)
  · exact (C9_tier3_counter (some (some ⟨0, 0⟩)) 1000 500).2.2.2.1
      (by norm_num [has_budget, MONTHLY_BUDGET_USD, TIER3_WEEKLY_LIMIT]) (by simp)

/-- Under first-match semantics at most one rule of a decision list fires. -/
theorem ruleFires_unique {rules : List TrackRule} {x : TrackInput} {i j : ℕ}
    (hi : ruleFires rules x i) (hj : ruleFires rules x j) : i = j := by
  obtain ⟨hli, hgi, hbi⟩ := hi
  obtain ⟨hlj, hgj, hbj⟩ := hj
  by_contra hne
  rcases Nat.lt_or_ge i j with h | h
  · have hfalse := hbj i h
    rw [hfalse] at hgi
    exact Bool.false_ne_true hgi
  · have hij : j < i := by omega
    have hfalse := hbi j hij
    rw [hfalse] at hgj
    exact Bool.false_ne_true hgj

/-- If some guard of a decision list accepts `x`, some rule fires on `x`
(the least accepting index). -/
theorem ruleFires_exists {rules : List TrackRule} {x : TrackInput}
    (h : ∃ i, ∃ hi : i < rules.length, (rules.get ⟨i, hi⟩).guard x = true) :
    ∃ i, ruleFires rules x i := by
  classical
  have hfind := Nat.find_spec h
  refine ⟨Nat.find h, ?_⟩
  obtain ⟨hlt, hg⟩ := hfind
  refine ⟨hlt, hg, ?_⟩
  intro j hj
  have hjl : j < rules.length := by omega
  have hmin := Nat.find_min h hj
  cases hguard : (rules.get ⟨j, hjl⟩).guard x with
  | false => exact rfl
  | true => exact absurd ⟨hjl, hguard⟩ hmin

set_option maxHeartbeats 1000000 in
/-- C3: `assign_track` is the first-match evaluation of the ordered decision
list `trackRules` and exactly one rule fires on every input; it is a pure
function (equal inputs give equal tracks); `days_until_exam < 21` forces the
fast track chosen by `test_type` alone; otherwise `score ≥ 6.5` gives the
accelerated "sprint" track and otherwise `score < 5.5` gives the
foundational track. -/
theorem C3_assign_track (x : TrackInput) :
    evalRules x trackRules = some (assign_track x) ∧
    (∃! i, ruleFires trackRules x i) ∧
    (∀ y : TrackInput, x = y → assign_track x = assign_track y) ∧
    (x.days_until_exam < 21 →
      assign_track x =
        if x.test_type = "academic" then "academic_fast_track" else "general_fast_track") ∧
    (21 ≤ x.days_until_exam → 6.5 ≤ x.diagnostic_score → assign_track x = "sprint") ∧
    (21 ≤ x.days_until_exam → x.diagnostic_score < 6.5 → x.diagnostic_score < 5.5 →
      assign_track x = "foundation") := by
  refine ⟨?_, ?_, fun y h => h ▸ rfl, ?_, ?_, ?_⟩
  · simp only [evalRules, trackRules, assign_track, decide_eq_true_eq, Bool.and_eq_true]
    split_ifs <;> simp_all
  · obtain ⟨i, hfire⟩ := @ruleFires_exists trackRules x
      ⟨10, by norm_num [trackRules], rfl⟩
    exact ⟨i, hfire, fun j hj => ruleFires_unique hj hfire⟩
  · intro h
    rw [assign_track, if_pos h]
  · intro hdays hscore
    rw [assign_track, if_neg (not_lt.mpr hdays), if_pos hscore]
  · intro hdays hscore1 hscore2
    rw [assign_track, if_neg (not_lt.mpr hdays), if_neg (not_le.mpr hscore1), if_pos hscore2]

/-- Witness for C3 at a concrete input: 10 days to the exam forces the
academic fast track regardless of a 7.0 score. -/
theorem C3_assign_track_witness :
    assign_track ⟨7.0, 10, "academic", some "writing", 45, true⟩ = "academic_fast_track" := by
  have h := (C3_assign_track ⟨7.0, 10, "academic", some "writing", 45, true⟩).2.2.2.1
    (by norm_num)
  simpa using h

/-- `update_streak_row` on a row with no previous activity. -/
theorem update_streak_row_none (cur longest : ℕ) (today : ℤ) :
    update_streak_row ⟨cur, longest, none⟩ today =
      (⟨1, if longest < 1 then 1 else longest, some today⟩,
       ⟨1, if longest < 1 then 1 else longest, firstCrossed cur 1 milestones⟩) := rfl

/-- `update_streak_row` on a row with a recorded last activity day, with the
new current streak `c` factored out. -/
theorem update_streak_row_some (cur longest : ℕ) (last today : ℤ) (c : ℕ)
    (hc : c = if last = today then cur else if today - last = 1 then cur + 1 else 1) :
    update_streak_row ⟨cur, longest, some last⟩ today =
      (⟨c, if longest < c then c else longest, some today⟩,
       ⟨c, if longest < c then c else longest, firstCrossed cur c milestones⟩) := by
  subst hc
  rfl

/-- A same-day update leaves the current streak unchanged. -/
theorem update_current_today (cur longest : ℕ) (today : ℤ) :
    (update_streak_row ⟨cur, longest, some today⟩ today).1.current_streak = cur := by
  rw [update_streak_row_some cur longest today today cur (by rw [if_pos rfl])]

/-- After any update the stored last activity day is today. -/
theorem update_last (s : Streak) (today : ℤ) :
    (update_streak_row s today).1.last_activity_date = some today := by
  obtain ⟨cur, longest, last⟩ := s
  cases last with
  | none => rfl
  | some l => rw [update_streak_row_some cur longest l today _ rfl]

/-- After any update the stored longest streak is the maximum of its old
value and the new current streak. -/
theorem update_longest (s : Streak) (today : ℤ) :
    (update_streak_row s today).1.longest_streak =
      max s.longest_streak (update_streak_row s today).1.current_streak := by
  obtain ⟨cur, longest, last⟩ := s
  cases last with
  | none =>
    rw [update_streak_row_none]
    dsimp only
    split_ifs <;> omega
  | some l =>
    rw [update_streak_row_some cur longest l today _ rfl]
    dsimp only
    split_ifs <;> omega

/-- The milestone reported by an update is the first milestone crossed from
the previous current streak to the new one. -/
theorem update_milestone (s : Streak) (today : ℤ) :
    (update_streak_row s today).2.milestone_reached =
      firstCrossed s.current_streak (update_streak_row s today).1.current_streak milestones := by
  obtain ⟨cur, longest, last⟩ := s
  cases last with
  | none => rfl
  | some l => rw [update_streak_row_some cur longest l today _ rfl]

/-- Repeating an update on the same day leaves the stored row unchanged. -/
theorem update_idem (s : Streak) (today : ℤ) :
    (update_streak_row (update_streak_row s today).1 today).1 =
      (update_streak_row s today).1 := by
  have hlast := update_last s today
  have hlong := update_longest s today
  set r := (update_streak_row s today).1 with hr
  have hre : r = ⟨r.current_streak, r.longest_streak, some today⟩ := by
    rw [← hlast]
  rw [hre, update_streak_row_some r.current_streak r.longest_streak today today
    r.current_streak (by rw [if_pos rfl])]
  have hge : ¬ r.longest_streak < r.current_streak := by
    rw [hlong]
    omega
  dsimp only
  rw [if_neg hge]

/-- C4: the streak transition: a same-day update leaves `current_streak`
unchanged and repeating an update on the same day leaves the stored row
unchanged (idempotence); no previous activity sets the streak to 1; a gap of
exactly one day increments by exactly 1; a gap of more than one day resets to
1; afterwards `longest_streak` equals the maximum of its old value and the
new `current_streak`, so it never decreases. -/
theorem C4_streak_transition (s : Streak) (today : ℤ) :
    (s.last_activity_date = some today →
      (update_streak_row s today).1.current_streak = s.current_streak) ∧
    (s.last_activity_date = none → (update_streak_row s today).1.current_streak = 1) ∧
    (∀ last, s.last_activity_date = some last → today - last = 1 →
      (update_streak_row s today).1.current_streak = s.current_streak + 1) ∧
    (∀ last, s.last_activity_date = some last → 1 < today - last →
      (update_streak_row s today).1.current_streak = 1) ∧
    (update_streak_row s today).1.longest_streak =
      max s.longest_streak (update_streak_row s today).1.current_streak ∧
    s.longest_streak ≤ (update_streak_row s today).1.longest_streak ∧
    (update_streak_row (update_streak_row s today).1 today).1 =
      (update_streak_row s today).1 := by
  refine ⟨?_, ?_, ?_, ?_, update_longest s today, ?_, update_idem s today⟩
  · intro h
    obtain ⟨cur, longest, last⟩ := s
    dsimp only at h ⊢
    subst h
    exact update_current_today cur longest today
  · intro h
    obtain ⟨cur, longest, last⟩ := s
    dsimp only at h ⊢
    subst h
    rfl
  · intro l2 h hgap
    obtain ⟨cur, longest, last⟩ := s
    dsimp only at h ⊢
    subst h
    rw [update_streak_row_some cur longest l2 today _ rfl,
      if_neg (by omega), if_pos hgap]
  · intro l2 h hgap
    obtain ⟨cur, longest, last⟩ := s
    dsimp only at h ⊢
    subst h
    rw [update_streak_row_some cur longest l2 today _ rfl,
      if_neg (by omega), if_neg (by omega)]
  · rw [update_longest s today]
    omega

/-- Witness for C4: from a 3-day streak last active on day 10, day 11 gives
4 and day 13 resets to 1; same-day repeat on day 10 keeps 3. -/
theorem C4_streak_transition_witness :
    (update_streak_row ⟨3, 3, some 10⟩ 11).1.current_streak = 4 ∧
    (update_streak_row ⟨3, 3, some 10⟩ 13).1.current_streak = 1 ∧
    (update_streak_row ⟨3, 3, some 10⟩ 10).1.current_streak = 3 := by
  refine ⟨?_, ?_, ?_⟩
  · exact (C4_streak_transition ⟨3, 3, some 10⟩ 11).2.2.1 10 rfl (by decide)
  · exact (C4_streak_transition ⟨3, 3, some 10⟩ 13).2.2.2.1 10 rfl (by decide)
  · exact (C4_streak_transition ⟨3, 3, some 10⟩ 10).1 rfl

/-- What the milestone scan returns: the least milestone in the list strictly
above the previous streak and at most the new one, when one exists. -/
theorem firstCrossed_spec (previous current : ℕ) :
    (∀ m, firstCrossed previous current milestones = some m →
      m ∈ milestones ∧ previous < m ∧ m ≤ current ∧
      ∀ mm ∈ milestones, previous < mm → mm ≤ current → m ≤ mm) ∧
    ((∃ m ∈ milestones, previous < m ∧ m ≤ current) →
      ∃ m, firstCrossed previous current milestones = some m) := by
  simp only [milestones, firstCrossed]
  split_ifs <;> simp_all

/-- The milestone scan finds nothing when the streak did not grow. -/
theorem firstCrossed_none (previous current : ℕ) (h : current ≤ previous) :
    firstCrossed previous current milestones = none := by
  cases hm : firstCrossed previous current milestones with
  | none => rfl
  | some m =>
    obtain ⟨_, hlt, hle, _⟩ := (firstCrossed_spec previous current).1 m hm
    omega

/-- C5: `update_streak` reports a milestone `m` only when
`previous < m ≤ new current` with `m` in `{7,14,30,60,90}`, reports the
smallest such `m`, and reports one whenever such an `m` exists; a same-day
repeat reports none; the streak sequence 5→6→7 on consecutive days reports
milestone 7 exactly once, on the 6→7 transition, and not again on a repeated
same-day call. -/
theorem C5_milestone_firing (s : Streak) (today : ℤ) :
    (∀ m, (update_streak_row s today).2.milestone_reached = some m →
      m ∈ milestones ∧ s.current_streak < m ∧
      m ≤ (update_streak_row s today).1.current_streak ∧
      ∀ mm ∈ milestones, s.current_streak < mm →
        mm ≤ (update_streak_row s today).1.current_streak → m ≤ mm) ∧
    ((∃ m ∈ milestones, s.current_streak < m ∧
        m ≤ (update_streak_row s today).1.current_streak) →
      ∃ m, (update_streak_row s today).2.milestone_reached = some m) ∧
    (s.last_activity_date = some today →
      (update_streak_row s today).2.milestone_reached = none) ∧
    (update_streak_row ⟨5, 5, some 0⟩ 1).2.milestone_reached = none ∧
    (update_streak_row (update_streak_row ⟨5, 5, some 0⟩ 1).1 2).1.current_streak = 7 ∧
    (update_streak_row (update_streak_row ⟨5, 5, some 0⟩ 1).1 2).2.milestone_reached =
      some 7 ∧
    (update_streak_row
      (update_streak_row (update_streak_row ⟨5, 5, some 0⟩ 1).1 2).1 2).2.milestone_reached =
      none := by
  refine ⟨?_, ?_, ?_, by decide, by decide, by decide, by decide⟩
  · rw [update_milestone]
    exact (firstCrossed_spec s.current_streak _).1
  · rw [update_milestone]
    exact (firstCrossed_spec s.current_streak _).2
  · intro h
    rw [update_milestone]
    obtain ⟨cur, longest, last⟩ := s
    dsimp only at h ⊢
    subst h
    rw [update_current_today]
    exact firstCrossed_none cur cur le_rfl

/-- Witness for C5: crossing from 6 to 7 fires milestone 7. -/
theorem C5_milestone_firing_witness :
    ∃ m, (update_streak_row ⟨6, 6, some 0⟩ 1).2.milestone_reached = some m := by
  refine (C5_milestone_firing ⟨6, 6, some 0⟩ 1).2.1 ⟨7, by decide, by decide, ?_⟩
  have h7 : (update_streak_row ⟨6, 6, some 0⟩ 1).1.current_streak = 7 := by decide
  omega

/-- C7: `check_performance_and_swap` triggers an intervention only when the
completion score is below 60: at `score >= 60` (including the boundary 60) it
returns no swap and creates no `ContentSwap` row; any created swap implies
`score < 60`; the replacement search takes the narrow strategy-pattern query
first and falls back to the broad module query; absence of any candidate
yields a `none` result rather than an error; with a candidate and a failing
score exactly one swap row is created and the candidate returned. -/
theorem C7_intervention_trigger (db : SwapDb) (tid : ℕ) (score : ℤ) (module : String) :
    (60 ≤ score → check_performance_and_swap db tid score module = .ok ⟨none, []⟩) ∧
    (∀ run, check_performance_and_swap db tid score module = .ok run →
      run.swaps_created ≠ [] → score < 60) ∧
    (∀ t, db.strategy_query = some t → get_intervention_task db = some t) ∧
    (db.strategy_query = none → get_intervention_task db = db.fallback_query) ∧
    (score < 60 → get_intervention_task db = none →
      check_performance_and_swap db tid score module = .ok ⟨none, []⟩) ∧
    (score < 60 → ∀ u, db.user_row = some u → ∀ t, get_intervention_task db = some t →
      check_performance_and_swap db tid score module =
        .ok ⟨some t, [⟨module, tid, t.id⟩]⟩) := by
  obtain ⟨user, sq, fq⟩ := db
  refine ⟨?_, ?_, ?_, ?_, ?_, ?_⟩
  · intro h
    simp only [check_performance_and_swap, if_pos h]
  · intro run hrun hswaps
    by_cases hscore : score < 60
    · exact hscore
    · rw [not_lt] at hscore
      simp only [check_performance_and_swap, if_pos hscore] at hrun
      cases hrun
      exact absurd rfl hswaps
  · intro t ht
    dsimp only at ht
    subst ht
    rfl
  · intro ht
    dsimp only at ht
    subst ht
    rfl
  · intro hscore ht
    simp only [check_performance_and_swap, if_neg (not_le.mpr hscore)]
    cases user with
    | none => rfl
    | some u => simp only [ht]
  · intro hscore u hu t ht
    dsimp only at hu
    subst hu
    simp only [check_performance_and_swap, if_neg (not_le.mpr hscore), ht]

/-- Witness for C7: a failing score 59 with a matching strategy task creates
exactly one swap; the boundary score 60 creates none. -/
theorem C7_intervention_trigger_witness :
    check_performance_and_swap
      ⟨some (), some ⟨9, "writing strategy drill", "strategy"⟩, none⟩ 4 59 "writing" =
      .ok ⟨some ⟨9, "writing strategy drill", "strategy"⟩, [⟨"writing", 4, 9⟩]⟩ ∧
    check_performance_and_swap
      ⟨some (), some ⟨9, "writing strategy drill", "strategy"⟩, none⟩ 4 60 "writing" =
      .ok ⟨none, []⟩ := by
  constructor
  · exact (C7_intervention_trigger
      ⟨some (), some ⟨9, "writing strategy drill", "strategy"⟩, none⟩ 4 59 "writing").2.2.2.2.2
      (by norm_num) () rfl ⟨9, "writing strategy drill", "strategy"⟩ rfl
  · exact (C7_intervention_trigger
      ⟨some (), some ⟨9, "writing strategy drill", "strategy"⟩, none⟩ 4 60 "writing").1
      (by norm_num)

/-- C8 counterexample: `check_performance_and_swap` on a failing score for a
user that does not exist returns `Ok` with no swap — it does not surface a
`NotFound` failure as the claim states. -/
theorem C8_counterexample :
    check_performance_and_swap ⟨none, none, none⟩ 1 30 "reading" =
      .ok ⟨none, []⟩ := by
  norm_num [check_performance_and_swap]

/-- C8 (amended): `update_streak` surfaces `NotFoundError("Streak", userId)`
to the caller exactly when the user has no streak row, and otherwise runs the
transition; `check_performance_and_swap`, however, returns no-intervention
(`None`) for a missing user and never surfaces an error for any input. -/
theorem C8_notfound_propagation (user_id : String) (row : Option Streak) (today : ℤ)
    (db : SwapDb) (tid : ℕ) (score : ℤ) (module : String) :
    (row = none →
      update_streak_service user_id row today =
        .error (.notFoundError "Streak" user_id)) ∧
    (∀ s, row = some s →
      update_streak_service user_id row today = .ok (update_streak_row s today)) ∧
    (db.user_row = none → score < 60 →
      check_performance_and_swap db tid score module = .ok ⟨none, []⟩) ∧
    (∃ run, check_performance_and_swap db tid score module = .ok run) := by
  refine ⟨?_, ?_, ?_, ?_⟩
  · intro h
    subst h
    rfl
  · intro s h
    subst h
    rfl
  · intro hu hscore
    obtain ⟨user, sq, fq⟩ := db
    dsimp only at hu
    subst hu
    simp only [check_performance_and_swap, if_neg (not_le.mpr hscore)]
  · obtain ⟨user, sq, fq⟩ := db
    simp only [check_performance_and_swap]
    by_cases h : 60 ≤ score
    · exact ⟨⟨none, []⟩, by rw [if_pos h]⟩
    · rw [if_neg h]
      cases user with
      | none => exact ⟨⟨none, []⟩, rfl⟩
      | some u =>
        cases hgi : get_intervention_task ⟨some u, sq, fq⟩ with
        | none => exact ⟨⟨none, []⟩, by simp only [hgi]⟩
        | some t => exact ⟨⟨some t, [⟨module, tid, t.id⟩]⟩, by simp only [hgi]⟩

/-- Witness for C8 (amended): a user with no streak row gets the
`NotFoundError`; a missing user with a failing score gets `Ok` with no swap. -/
theorem C8_notfound_propagation_witness :
    update_streak_service "u1" none 5 = .error (.notFoundError "Streak" "u1") ∧
    check_performance_and_swap
      ⟨none, some ⟨1, "reading practice", "practice"⟩, none⟩ 2 30 "reading" =
      .ok ⟨none, []⟩ :=
  ⟨(C8_notfound_propagation "u1" none 5 ⟨none, none, none⟩ 1 30 "reading").1 rfl,
   (C8_notfound_propagation "u1" none 5
      ⟨none, some ⟨1, "reading practice", "practice"⟩, none⟩ 2 30 "reading").2.2.1 rfl
      (by norm_num)⟩

/-- C10: with no database session configured (`set_db` never called),
`has_budget` allows every tier and `log_usage` returns the computed cost
while persisting nothing: no usage-log insert and no budget upsert. -/
theorem C10_no_db_session (tier i o : ℕ) :
    has_budget none tier = true ∧
    log_usage none tier i o =
      ⟨usage_cost tier i o, none, false⟩ := ⟨rfl, rfl⟩

end Momentum
